import Mathlib

/-!
# Camera Explorer core — shallow embedding

A Lean model of the 3D Camera Explorer core of the repository:

* the lens preset table and its lookup functions
  (`src/lib/camera/lensPresets.js`);
* the camera-explorer zustand store and its actions
  (`src/lib/store/cameraExplorerStore.js`);
* the viewer-side navigation handlers — scene-bound clamping, arrow-key
  movement, scroll-wheel height, and mouse-look pitch clamping
  (`src/components/camera-explorer/GaussianSplatViewer.jsx`);
* the reconstruction submission flow of `CameraExplorerPage.handleReconstruct`.

JavaScript numbers are modelled by `ℚ` where only comparisons, additions and
multiplications by constants occur, and by `ℝ` where `Math.PI` enters.
Object-literal property lookup is modelled as association-list lookup in
insertion order (which `Object.entries` preserves for string keys).
-/

/-! ## Lens model (`lensPresets.js`) -/

structure LensPreset where
  focalLength : ℚ
  fovHorizontal : ℚ
  fovVertical : ℚ
  name : String
  description : String
  shortcut : String
deriving DecidableEq, Repr

def preset12mm : LensPreset :=
  { focalLength := 12, fovHorizontal := 122.0, fovVertical := 90.0
    name := "Fisheye", description := "Extreme wide, see entire room"
    shortcut := "1" }

def preset24mm : LensPreset :=
  { focalLength := 24, fovHorizontal := 84.1, fovVertical := 53.1
    name := "Ultra Wide", description := "Dramatic perspective, environmental context"
    shortcut := "2" }

def preset35mm : LensPreset :=
  { focalLength := 35, fovHorizontal := 63.4, fovVertical := 37.8
    name := "Wide", description := "Natural perspective, street photography"
    shortcut := "3" }

def preset50mm : LensPreset :=
  { focalLength := 50, fovHorizontal := 46.8, fovVertical := 27.0
    name := "Normal", description := "Human eye equivalent, neutral distortion"
    shortcut := "4" }

def preset85mm : LensPreset :=
  { focalLength := 85, fovHorizontal := 28.6, fovVertical := 16.1
    name := "Portrait", description := "Flattering compression, subject isolation"
    shortcut := "5" }

def preset135mm : LensPreset :=
  { focalLength := 135, fovHorizontal := 18.2, fovVertical := 10.2
    name := "Telephoto", description := "Strong compression, cinematic isolation"
    shortcut := "6" }

/-- The `LENS_PRESETS` object literal, as an association list in insertion
order. -/
def LENS_PRESETS : List (String × LensPreset) :=
  [("12mm", preset12mm), ("24mm", preset24mm), ("35mm", preset35mm),
   ("50mm", preset50mm), ("85mm", preset85mm), ("135mm", preset135mm)]

/-- `LENS_PRESETS[lensId]`: own-property lookup on the object literal. -/
def lensPresetsGet (lensId : String) : Option LensPreset :=
  (LENS_PRESETS.find? (fun e => e.1 = lensId)).map Prod.snd

/-- `getThreeFOV(lensId)`: `LENS_PRESETS[lensId]?.fovVertical || 27.0`.
The `||` falls back on `undefined` (id absent) and on `0` (falsy number). -/
def getThreeFOV (lensId : String) : ℚ :=
  match lensPresetsGet lensId with
  | some p => if p.fovVertical = 0 then 27.0 else p.fovVertical
  | none => 27.0

/-- `getHorizontalFOV(lensId)`: `LENS_PRESETS[lensId]?.fovHorizontal || 46.8`. -/
def getHorizontalFOV (lensId : String) : ℚ :=
  match lensPresetsGet lensId with
  | some p => if p.fovHorizontal = 0 then 46.8 else p.fovHorizontal
  | none => 46.8

/-- `getLensPreset(lensId)`: `LENS_PRESETS[lensId] || LENS_PRESETS['50mm']`
(an object is always truthy, so the fallback fires exactly when the id is
absent). -/
def getLensPreset (lensId : String) : LensPreset :=
  match lensPresetsGet lensId with
  | some p => p
  | none => (lensPresetsGet "50mm").getD preset50mm

/-- `getLensFromShortcut(key)`: `Object.entries(LENS_PRESETS).find(([, p]) =>
p.shortcut === key)`, returning the entry's key or `null`. -/
def getLensFromShortcut (key : String) : Option String :=
  (LENS_PRESETS.find? (fun e => e.2.shortcut = key)).map Prod.fst

def DEFAULT_LENS : String := "35mm"

/-! ## Camera explorer store (`cameraExplorerStore.js`) -/

structure Vec3 where
  x : ℚ
  y : ℚ
  z : ℚ
deriving DecidableEq, Repr

/-- A captured snapshot record, as built by `captureSnapshot`. -/
structure Snapshot where
  id : String
  thumbnailDataUrl : String
  position : Vec3
  rotation : Vec3
  lens : String
  createdAt : String
deriving DecidableEq, Repr

/-- The full zustand store state. Statuses are the literal strings used by the
source; nullable fields are `Option`. -/
structure CameraExplorerState where
  reconstructionStatus : String
  reconstructionError : Option String
  plyUrl : Option String
  sourceKeyframeId : Option String
  sourceKeyframeUrl : Option String
  cameraPosition : Vec3
  cameraRotation : Vec3
  selectedLens : String
  showGrid : Bool
  showHUD : Bool
  snapshots : List Snapshot
  selectedSnapshotId : Option String
  generationStatus : String
  generationError : Option String
  generatedFrameUrl : Option String
deriving DecidableEq, Repr

/-- The store's initial state. -/
def initialState : CameraExplorerState :=
  { reconstructionStatus := "idle", reconstructionError := none, plyUrl := none
    sourceKeyframeId := none, sourceKeyframeUrl := none
    cameraPosition := ⟨0, 0, 5⟩, cameraRotation := ⟨0, 0, 0⟩
    selectedLens := DEFAULT_LENS, showGrid := false, showHUD := true
    snapshots := [], selectedSnapshotId := none
    generationStatus := "idle", generationError := none, generatedFrameUrl := none }

def setReconstructionProcessing (keyframeId keyframeUrl : String)
    (s : CameraExplorerState) : CameraExplorerState :=
  { s with
    reconstructionStatus := "processing", reconstructionError := none,
    plyUrl := none,
    sourceKeyframeId := some keyframeId, sourceKeyframeUrl := some keyframeUrl,
    cameraPosition := ⟨0, 0, 5⟩, cameraRotation := ⟨0, 0, 0⟩,
    snapshots := [], selectedSnapshotId := none }

def setReconstructionCompleted (plyUrl : String)
    (s : CameraExplorerState) : CameraExplorerState :=
  { s with
    reconstructionStatus := "completed", reconstructionError := none,
    plyUrl := some plyUrl }

def setReconstructionError (error : String)
    (s : CameraExplorerState) : CameraExplorerState :=
  { s with
    reconstructionStatus := "error", reconstructionError := some error,
    plyUrl := none }

def resetReconstruction (s : CameraExplorerState) : CameraExplorerState :=
  { s with
    reconstructionStatus := "idle", reconstructionError := none,
    plyUrl := none, sourceKeyframeId := none, sourceKeyframeUrl := none,
    snapshots := [], selectedSnapshotId := none }

def updateCameraPosition (position : Vec3) (s : CameraExplorerState) :
    CameraExplorerState :=
  { s with cameraPosition := position }

def updateCameraRotation (rotation : Vec3) (s : CameraExplorerState) :
    CameraExplorerState :=
  { s with cameraRotation := rotation }

def setSelectedLens (lens : String) (s : CameraExplorerState) :
    CameraExplorerState :=
  { s with selectedLens := lens }

def toggleGrid (s : CameraExplorerState) : CameraExplorerState :=
  { s with showGrid := !s.showGrid }

def toggleHUD (s : CameraExplorerState) : CameraExplorerState :=
  { s with showHUD := !s.showHUD }

def resetCamera (s : CameraExplorerState) : CameraExplorerState :=
  { s with
    cameraPosition := ⟨0, 0, 5⟩, cameraRotation := ⟨0, 0, 0⟩,
    selectedLens := DEFAULT_LENS }

/-- The caller-supplied data of one `captureSnapshot` call: the thumbnail, the
camera state read from the viewer, and the values produced by `generateId()`
and `new Date().toISOString()` (modelled as inputs, since they come from
outside the store's state). -/
structure CaptureArgs where
  thumbnailDataUrl : String
  position : Vec3
  rotation : Vec3
  id : String
  createdAt : String
deriving DecidableEq, Repr

/-- The snapshot record `captureSnapshot` builds: caller data plus the store's
currently selected lens. -/
def mkSnapshot (a : CaptureArgs) (lens : String) : Snapshot :=
  { id := a.id, thumbnailDataUrl := a.thumbnailDataUrl
    position := a.position, rotation := a.rotation
    lens := lens, createdAt := a.createdAt }

def captureSnapshot (a : CaptureArgs) (s : CameraExplorerState) :
    CameraExplorerState :=
  { s with
    snapshots := s.snapshots ++ [mkSnapshot a s.selectedLens],
    selectedSnapshotId := some a.id }

def selectSnapshot (snapshotId : String) (s : CameraExplorerState) :
    CameraExplorerState :=
  { s with selectedSnapshotId := some snapshotId }

def deleteSnapshot (snapshotId : String) (s : CameraExplorerState) :
    CameraExplorerState :=
  { s with
    snapshots := s.snapshots.filter (fun snap => snap.id ≠ snapshotId),
    selectedSnapshotId :=
      if s.selectedSnapshotId = some snapshotId then none
      else s.selectedSnapshotId }

def clearSnapshots (s : CameraExplorerState) : CameraExplorerState :=
  { s with snapshots := [], selectedSnapshotId := none }

/-- `getSelectedSnapshot()`: `snapshots.find(s => s.id === selectedSnapshotId)
|| null`. A string id never strict-equals `null`, so a `none` pointer finds
nothing. -/
def getSelectedSnapshot (s : CameraExplorerState) : Option Snapshot :=
  s.snapshots.find? (fun snap => some snap.id = s.selectedSnapshotId)

/-- `CameraExplorerPage.handleReconstruct`: once the awaited reconstruction
call settles, its result is applied unconditionally — success calls
`setReconstructionCompleted(result.plyUrl)`, failure calls
`setReconstructionError(error.message)`. No submission identity is compared
at delivery time. -/
def deliverReconstructionResult (result : Except String String)
    (s : CameraExplorerState) : CameraExplorerState :=
  match result with
  | .ok plyUrl => setReconstructionCompleted plyUrl s
  | .error msg => setReconstructionError msg s

/-! ## Viewer navigation (`GaussianSplatViewer.jsx`) -/

/-- Scene bounds as stored in `sceneBoundsRef.current`. -/
structure SceneBounds where
  min : Vec3
  max : Vec3
deriving DecidableEq, Repr

/-- The viewer-side navigation state the movement handlers touch: the three.js
camera position and the scene-bounds ref. -/
structure ViewerNavState where
  position : Vec3
  sceneBounds : Option SceneBounds
deriving DecidableEq, Repr

def MOVE_SPEED : ℚ := 0.15

/-- `Math.max(lo, Math.min(hi, v))`. -/
def clampNum (lo hi v : ℚ) : ℚ := max lo (min hi v)

/-- `clampToSceneBounds(position)`: identity when no bounds are recorded,
otherwise the componentwise `Math.max(min, Math.min(max, ·))` clamp. -/
def clampToSceneBounds (bounds : Option SceneBounds) (position : Vec3) : Vec3 :=
  match bounds with
  | none => position
  | some b =>
    ⟨clampNum b.min.x b.max.x position.x,
     clampNum b.min.y b.max.y position.y,
     clampNum b.min.z b.max.z position.z⟩

/-- `sceneBoundsRef.current = bounds` (bounds recording after a reconstruction
loads). -/
def recordSceneBounds (b : SceneBounds) (s : ViewerNavState) : ViewerNavState :=
  { s with sceneBounds := some b }

/-- One `moveCamera` tick. `fx`/`fz` are the components of the camera's world
direction after `forward.y = 0; forward.normalize()`; the right vector is the
cross product `forward × (0,1,0) = (-fz, 0, fx)` (already unit length when
`forward` is). The four booleans are the key states `arrowup||w`,
`arrowdown||s`, `arrowleft||a`, `arrowright||d`. When any key is held the
candidate position is clamped and written back with the x/z from the clamp but
the PREVIOUS y (`camera.position.set(clamped.x, camera.position.y, clamped.z)`). -/
def moveCamera (fx fz : ℚ) (keyUp keyDown keyLeft keyRight : Bool)
    (s : ViewerNavState) : ViewerNavState :=
  let rx : ℚ := -fz
  let rz : ℚ := fx
  let p0 := s.position
  let p1 := if keyUp then
    { p0 with x := p0.x + fx * MOVE_SPEED, z := p0.z + fz * MOVE_SPEED } else p0
  let p2 := if keyDown then
    { p1 with x := p1.x - fx * MOVE_SPEED, z := p1.z - fz * MOVE_SPEED } else p1
  let p3 := if keyLeft then
    { p2 with x := p2.x - rx * MOVE_SPEED, z := p2.z - rz * MOVE_SPEED } else p2
  let p4 := if keyRight then
    { p3 with x := p3.x + rx * MOVE_SPEED, z := p3.z + rz * MOVE_SPEED } else p3
  let moved := keyUp || keyDown || keyLeft || keyRight
  if moved then
    let clamped := clampToSceneBounds s.sceneBounds p4
    { s with position := ⟨clamped.x, p0.y, clamped.z⟩ }
  else s

/-- `handleWheel` (when the viewer is active): `newY = y - deltaY * 0.005`,
clamped into `[bounds.min.y, bounds.max.y]` when bounds exist. -/
def handleWheel (deltaY : ℚ) (s : ViewerNavState) : ViewerNavState :=
  let newY := s.position.y - deltaY * 0.005
  let newY2 := match s.sceneBounds with
    | some b => clampNum b.min.y b.max.y newY
    | none => newY
  { s with position := { s.position with y := newY2 } }

/-- A movement operation delivered after bounds are recorded: one `moveCamera`
tick (with the forward direction current at that tick) or one wheel event. -/
inductive NavOp where
  | move (fx fz : ℚ) (keyUp keyDown keyLeft keyRight : Bool)
  | wheel (deltaY : ℚ)
deriving DecidableEq, Repr

def applyNavOp (s : ViewerNavState) (op : NavOp) : ViewerNavState :=
  match op with
  | .move fx fz keyUp keyDown keyLeft keyRight =>
    moveCamera fx fz keyUp keyDown keyLeft keyRight s
  | .wheel deltaY => handleWheel deltaY s

def applyNavOps (s : ViewerNavState) (ops : List NavOp) : ViewerNavState :=
  ops.foldl applyNavOp s

/-- `B.min ≤ p ≤ B.max` componentwise. -/
def inBounds (b : SceneBounds) (p : Vec3) : Prop :=
  b.min.x ≤ p.x ∧ p.x ≤ b.max.x ∧
  b.min.y ≤ p.y ∧ p.y ≤ b.max.y ∧
  b.min.z ≤ p.z ∧ p.z ≤ b.max.z

instance (b : SceneBounds) (p : Vec3) : Decidable (inBounds b p) := by
  unfold inBounds; infer_instance

/-- Well-formed bounds: the padded box did not invert. -/
def wfBounds (b : SceneBounds) : Prop :=
  b.min.x ≤ b.max.x ∧ b.min.y ≤ b.max.y ∧ b.min.z ≤ b.max.z

instance (b : SceneBounds) : Decidable (wfBounds b) := by
  unfold wfBounds; infer_instance

/-! ### Mouse look (`handleMouseMove`) -/

noncomputable section

def LOOK_SPEED : ℝ := 0.003

/-- The rotation update of `handleMouseMove` during a drag: yaw
(`camera.rotation.y`) and pitch (`camera.rotation.x`) both decrease by
`delta * LOOK_SPEED`, then pitch is clamped to
`[-Math.PI / 2.5, Math.PI / 2.5]`. Returns (pitch, yaw). -/
def handleMouseMove (pitch yaw deltaX deltaY : ℝ) : ℝ × ℝ :=
  let yaw2 := yaw - deltaX * LOOK_SPEED
  let pitch2 := pitch - deltaY * LOOK_SPEED
  (max (-(Real.pi / 2.5)) (min (Real.pi / 2.5) pitch2), yaw2)

/-- A whole drag sequence: fold `handleMouseMove` over the per-event
`(deltaX, deltaY)` pairs. -/
def applyLooks (r : ℝ × ℝ) (ds : List (ℝ × ℝ)) : ℝ × ℝ :=
  ds.foldl (fun r d => handleMouseMove r.1 r.2 d.1 d.2) r

end

/-- A sequence of `captureSnapshot` calls, in order. -/
def captureMany (s : CameraExplorerState) (caps : List CaptureArgs) :
    CameraExplorerState :=
  caps.foldl (fun st a => captureSnapshot a st) s

/-! ## Helper lemmas -/

theorem clampNum_mem (lo hi v : ℚ) (h : lo ≤ hi) :
    lo ≤ clampNum lo hi v ∧ clampNum lo hi v ≤ hi :=
  ⟨le_max_left _ _, max_le h (min_le_left _ _)⟩

theorem moveCamera_preserves (b : SceneBounds) (s : ViewerNavState)
    (fx fz : ℚ) (k1 k2 k3 k4 : Bool) (hwf : wfBounds b)
    (hb : s.sceneBounds = some b) (hp : inBounds b s.position) :
    (moveCamera fx fz k1 k2 k3 k4 s).sceneBounds = some b ∧
    inBounds b (moveCamera fx fz k1 k2 k3 k4 s).position := by
  unfold moveCamera
  by_cases hm : (k1 || k2 || k3 || k4) = true
  · obtain ⟨w1, w2, w3⟩ := hwf
    obtain ⟨_, _, hy1, hy2, _, _⟩ := hp
    simp only [hm, if_true, hb, clampToSceneBounds]
    refine ⟨trivial, ?_⟩
    exact ⟨(clampNum_mem _ _ _ w1).1, (clampNum_mem _ _ _ w1).2, hy1, hy2,
      (clampNum_mem _ _ _ w3).1, (clampNum_mem _ _ _ w3).2⟩
  · simp only [Bool.not_eq_true] at hm
    simp only [hm, Bool.false_eq_true, if_false]
    exact ⟨hb, hp⟩

theorem handleWheel_preserves (b : SceneBounds) (s : ViewerNavState)
    (deltaY : ℚ) (hwf : wfBounds b) (hb : s.sceneBounds = some b)
    (hp : inBounds b s.position) :
    (handleWheel deltaY s).sceneBounds = some b ∧
    inBounds b (handleWheel deltaY s).position := by
  obtain ⟨w1, w2, w3⟩ := hwf
  obtain ⟨hx1, hx2, _, _, hz1, hz2⟩ := hp
  unfold handleWheel
  simp only [hb]
  refine ⟨trivial, ?_⟩
  exact ⟨hx1, hx2, (clampNum_mem _ _ _ w2).1, (clampNum_mem _ _ _ w2).2,
    hz1, hz2⟩

theorem applyNavOp_preserves (b : SceneBounds) (s : ViewerNavState)
    (op : NavOp) (hwf : wfBounds b) (hb : s.sceneBounds = some b)
    (hp : inBounds b s.position) :
    (applyNavOp s op).sceneBounds = some b ∧
    inBounds b (applyNavOp s op).position := by
  cases op with
  | move fx fz k1 k2 k3 k4 => exact moveCamera_preserves b s fx fz k1 k2 k3 k4 hwf hb hp
  | wheel deltaY => exact handleWheel_preserves b s deltaY hwf hb hp

theorem applyNavOps_preserves (b : SceneBounds) (ops : List NavOp)
    (s : ViewerNavState) (hwf : wfBounds b) (hb : s.sceneBounds = some b)
    (hp : inBounds b s.position) :
    (applyNavOps s ops).sceneBounds = some b ∧
    inBounds b (applyNavOps s ops).position := by
  induction ops generalizing s with
  | nil => exact ⟨hb, hp⟩
  | cons op ops ih =>
    obtain ⟨hb2, hp2⟩ := applyNavOp_preserves b s op hwf hb hp
    exact ih (applyNavOp s op) hb2 hp2

/-! ## Claim theorems -/

/-- C1, counterexample: the code has no submission token. After
`submit(img-a); submit(img-b)`, delivering the result of the stale submission
`img-a` does NOT leave `status`/`plyUrl`/`errorMessage` as they were: the
`setReconstructionCompleted` call in `handleReconstruct` applies it
unconditionally. -/
theorem c1_stale_complete_changes_state :
    let s2 := setReconstructionProcessing "img-b" "url-b"
      (setReconstructionProcessing "img-a" "url-a" initialState)
    let s3 := deliverReconstructionResult (.ok "ply-a") s2
    ¬(s3.reconstructionStatus = s2.reconstructionStatus ∧
      s3.plyUrl = s2.plyUrl ∧
      s3.reconstructionError = s2.reconstructionError) := by
  decide

/-- C1, amended: `complete()`/`fail()` deliveries are applied unconditionally,
whatever submission they belong to — after `submit(a); submit(b)`, delivering
any result (including the stale submission's) transitions the session to
`completed` with that result's `plyUrl` (resp. to `error` with that message);
the last delivered result wins, not only the result of the current
submission. -/
theorem c1_delivery_unconditional (s : CameraExplorerState)
    (a aUrl b bUrl ra msg : String) :
    ((deliverReconstructionResult (.ok ra)
        (setReconstructionProcessing b bUrl
          (setReconstructionProcessing a aUrl s))).reconstructionStatus =
        "completed" ∧
     (deliverReconstructionResult (.ok ra)
        (setReconstructionProcessing b bUrl
          (setReconstructionProcessing a aUrl s))).plyUrl = some ra) ∧
    ((deliverReconstructionResult (.error msg)
        (setReconstructionProcessing b bUrl
          (setReconstructionProcessing a aUrl s))).reconstructionStatus =
        "error" ∧
     (deliverReconstructionResult (.error msg)
        (setReconstructionProcessing b bUrl
          (setReconstructionProcessing a aUrl s))).reconstructionError =
        some msg) :=
  ⟨⟨rfl, rfl⟩, ⟨rfl, rfl⟩⟩

/-- C2, counterexample: with bounds `min=(-1,1,-1)`, `max=(1,2,1)` recorded and
the camera at `(0, 0.06, 0)` (its y outside the bounds, as happens when the
padded scene box lies above the camera's initial height), one `moveCamera`
tick leaves `y = 0.06 < min.y = 1`: `moveCamera` writes back the PREVIOUS y
and never clamps it, so the position does not satisfy
`B.min ≤ position ≤ B.max` componentwise after the operation. -/
theorem c2_move_leaves_y_outside_bounds :
    wfBounds ⟨⟨-1, 1, -1⟩, ⟨1, 2, 1⟩⟩ ∧
    (⟨⟨0, 6/100, 0⟩, some ⟨⟨-1, 1, -1⟩, ⟨1, 2, 1⟩⟩⟩ : ViewerNavState).sceneBounds
      = some ⟨⟨-1, 1, -1⟩, ⟨1, 2, 1⟩⟩ ∧
    ¬ inBounds ⟨⟨-1, 1, -1⟩, ⟨1, 2, 1⟩⟩
      (applyNavOps ⟨⟨0, 6/100, 0⟩, some ⟨⟨-1, 1, -1⟩, ⟨1, 2, 1⟩⟩⟩
        [.move 0 1 true false false false]).position := by
  refine ⟨by decide, rfl, ?_⟩
  simp [applyNavOps, applyNavOp, moveCamera, clampToSceneBounds, clampNum,
    inBounds, MOVE_SPEED]
  norm_num

/-- C2, amended: provided the recorded bounds are not inverted
(`B.min ≤ B.max` componentwise) and the camera position satisfies the bounds
when they are recorded, every sequence of `moveCamera` ticks and wheel events
keeps the position inside `[B.min, B.max]` componentwise. (As stated the claim
fails: `moveCamera` leaves y untouched, so a start position outside the bounds
stays outside — see the counterexample.) -/
theorem c2_bounded_navigation_invariant (b : SceneBounds) (s : ViewerNavState)
    (ops : List NavOp) (hwf : wfBounds b) (hb : s.sceneBounds = some b)
    (hp : inBounds b s.position) :
    inBounds b (applyNavOps s ops).position :=
  (applyNavOps_preserves b ops s hwf hb hp).2

/-- C2, witness for `c2_bounded_navigation_invariant`: concrete bounds, start
position and operation sequence. -/
theorem c2_bounded_navigation_invariant_witness :
    wfBounds ⟨⟨-1, -1, -1⟩, ⟨1, 1, 1⟩⟩ ∧
    (⟨⟨0, 0, 0⟩, some ⟨⟨-1, -1, -1⟩, ⟨1, 1, 1⟩⟩⟩ : ViewerNavState).sceneBounds
      = some ⟨⟨-1, -1, -1⟩, ⟨1, 1, 1⟩⟩ ∧
    inBounds ⟨⟨-1, -1, -1⟩, ⟨1, 1, 1⟩⟩
      (⟨⟨0, 0, 0⟩, some ⟨⟨-1, -1, -1⟩, ⟨1, 1, 1⟩⟩⟩ : ViewerNavState).position ∧
    inBounds ⟨⟨-1, -1, -1⟩, ⟨1, 1, 1⟩⟩
      (applyNavOps ⟨⟨0, 0, 0⟩, some ⟨⟨-1, -1, -1⟩, ⟨1, 1, 1⟩⟩⟩
        [.move 1 0 true false false false, .wheel 10,
         .move 0 (-1) false true true false]).position :=
  ⟨by decide, rfl, by decide,
    c2_bounded_navigation_invariant _ _ _ (by decide) rfl (by decide)⟩

theorem handleMouseMove_pitch_mem (p y dx dy : ℝ) :
    -(Real.pi / 2.5) ≤ (handleMouseMove p y dx dy).1 ∧
    (handleMouseMove p y dx dy).1 ≤ Real.pi / 2.5 := by
  have hpi : (0 : ℝ) ≤ Real.pi / 2.5 := by positivity
  simp only [handleMouseMove]
  exact ⟨le_max_left _ _, max_le (by linarith) (min_le_left _ _)⟩

theorem applyLooks_pitch_mem (ds : List (ℝ × ℝ)) (r : ℝ × ℝ)
    (h : -(Real.pi / 2.5) ≤ r.1 ∧ r.1 ≤ Real.pi / 2.5) :
    -(Real.pi / 2.5) ≤ (applyLooks r ds).1 ∧
    (applyLooks r ds).1 ≤ Real.pi / 2.5 := by
  induction ds generalizing r with
  | nil => exact h
  | cons d ds ih =>
    rw [show applyLooks r (d :: ds)
        = applyLooks (handleMouseMove r.1 r.2 d.1 d.2) ds from rfl]
    exact ih _ (handleMouseMove_pitch_mem r.1 r.2 d.1 d.2)

/-- C3: the mouse-look handler never produces a pitch outside
`[-π/2.5, π/2.5]` radians (±72°): every single `handleMouseMove` output
satisfies the bound, and so does the pitch after any nonempty sequence of
look deltas of any cumulative magnitude, from any starting rotation. -/
theorem c3_pitch_always_clamped (pitch yaw deltaX deltaY : ℝ)
    (r d : ℝ × ℝ) (ds : List (ℝ × ℝ)) :
    (-(Real.pi / 2.5) ≤ (handleMouseMove pitch yaw deltaX deltaY).1 ∧
      (handleMouseMove pitch yaw deltaX deltaY).1 ≤ Real.pi / 2.5) ∧
    (-(Real.pi / 2.5) ≤ (applyLooks r (d :: ds)).1 ∧
      (applyLooks r (d :: ds)).1 ≤ Real.pi / 2.5) := by
  refine ⟨handleMouseMove_pitch_mem pitch yaw deltaX deltaY, ?_⟩
  rw [show applyLooks r (d :: ds)
      = applyLooks (handleMouseMove r.1 r.2 d.1 d.2) ds from rfl]
  exact applyLooks_pitch_mem ds _ (handleMouseMove_pitch_mem r.1 r.2 d.1 d.2)

/-- C4: for every lens id absent from the preset table, `getLensPreset`
returns the 50mm "Normal" preset, `getThreeFOV` returns 27.0° (vertical) and
`getHorizontalFOV` returns 46.8°; all three are total functions, so none can
throw. -/
theorem c4_unknown_lens_fallback (lensId : String)
    (h : lensId ∉ LENS_PRESETS.map Prod.fst) :
    getLensPreset lensId = preset50mm ∧
    getThreeFOV lensId = 27.0 ∧
    getHorizontalFOV lensId = 46.8 := by
  have hfind0 : LENS_PRESETS.find? (fun e => e.1 = lensId) = none := by
    apply List.find?_eq_none.mpr
    intro e he
    simp only [decide_eq_true_eq]
    intro heq
    exact h (heq ▸ List.mem_map_of_mem Prod.fst he)
  have hfind : lensPresetsGet lensId = none := by
    simp [lensPresetsGet, hfind0]
  refine ⟨?_, ?_, ?_⟩
  · unfold getLensPreset
    rw [hfind]
    exact rfl
  · unfold getThreeFOV
    rw [hfind]
  · unfold getHorizontalFOV
    rw [hfind]

/-- C4, witness: the unknown lens id "100mm". -/
theorem c4_unknown_lens_fallback_witness :
    ("100mm" ∉ LENS_PRESETS.map Prod.fst) ∧
    (getLensPreset "100mm" = preset50mm ∧ getThreeFOV "100mm" = 27.0 ∧
      getHorizontalFOV "100mm" = 46.8) :=
  ⟨by decide, c4_unknown_lens_fallback "100mm" (by decide)⟩

theorem captureMany_concat (s : CameraExplorerState) (cs : List CaptureArgs)
    (c : CaptureArgs) :
    captureMany s (cs ++ [c]) = captureSnapshot c (captureMany s cs) := by
  simp [captureMany, List.foldl_append]

theorem captureMany_selectedLens (caps : List CaptureArgs)
    (s : CameraExplorerState) :
    (captureMany s caps).selectedLens = s.selectedLens := by
  induction caps generalizing s with
  | nil => rfl
  | cons a caps ih =>
    rw [show captureMany s (a :: caps)
        = captureMany (captureSnapshot a s) caps from rfl]
    exact (ih (captureSnapshot a s)).trans rfl

theorem captureMany_snapshots (caps : List CaptureArgs)
    (s : CameraExplorerState) :
    (captureMany s caps).snapshots
      = s.snapshots ++ caps.map (fun a => mkSnapshot a s.selectedLens) := by
  induction caps generalizing s with
  | nil => simp [captureMany]
  | cons a caps ih =>
    rw [show captureMany s (a :: caps)
        = captureMany (captureSnapshot a s) caps from rfl]
    rw [ih (captureSnapshot a s)]
    simp [captureSnapshot]

theorem getSelectedSnapshot_of_none (t : CameraExplorerState)
    (h : t.selectedSnapshotId = none) : getSelectedSnapshot t = none := by
  unfold getSelectedSnapshot
  rw [h]
  apply List.find?_eq_none.mpr
  intro snap _
  simp

/-- C5: capturing `N = cs.length + 1` snapshots (with the pairwise-distinct
ids produced by `generateId`) and then deleting the currently-selected one —
the last capture — leaves `getSelectedSnapshot` at none and the collection at
`N - 1` elements, namely the first `N - 1` snapshots in capture order
(`dropLast`); and deleting any id that is not the selected one leaves the
selection pointer unchanged. -/
theorem c5_delete_selected_snapshot (s : CameraExplorerState)
    (cs : List CaptureArgs) (c : CaptureArgs) (hempty : s.snapshots = [])
    (hnodup : ((cs ++ [c]).map CaptureArgs.id).Nodup) :
    ((deleteSnapshot c.id (captureMany s (cs ++ [c]))).snapshots.length
        = (cs ++ [c]).length - 1 ∧
     (deleteSnapshot c.id (captureMany s (cs ++ [c]))).snapshots
        = (captureMany s (cs ++ [c])).snapshots.dropLast ∧
     getSelectedSnapshot (deleteSnapshot c.id (captureMany s (cs ++ [c])))
        = none) ∧
    ∀ (t : CameraExplorerState) (j : String),
      t.selectedSnapshotId ≠ some j →
      (deleteSnapshot j t).selectedSnapshotId = t.selectedSnapshotId := by
  have hsnaps : (captureMany s (cs ++ [c])).snapshots
      = cs.map (fun a => mkSnapshot a s.selectedLens)
        ++ [mkSnapshot c s.selectedLens] := by
    rw [captureMany_snapshots, hempty]
    simp
  have hsel : (captureMany s (cs ++ [c])).selectedSnapshotId = some c.id := by
    rw [captureMany_concat]
    rfl
  have hid : c.id ∉ cs.map CaptureArgs.id := by
    simp only [List.map_append, List.map_cons, List.map_nil] at hnodup
    intro hmem
    exact (List.nodup_append.mp hnodup).2.2 hmem (List.mem_singleton.mpr rfl)
  have hfilter : (deleteSnapshot c.id (captureMany s (cs ++ [c]))).snapshots
      = cs.map (fun a => mkSnapshot a s.selectedLens) := by
    unfold deleteSnapshot
    simp only [hsnaps, List.filter_append]
    rw [List.filter_eq_self.mpr, List.filter_cons]
    · simp [mkSnapshot]
    · intro snap hmem
      simp only [List.mem_map] at hmem
      obtain ⟨a, ha, rfl⟩ := hmem
      simp only [decide_eq_true_eq, mkSnapshot, ne_eq]
      intro heq
      exact hid (heq ▸ List.mem_map_of_mem CaptureArgs.id ha)
  have hselnone : (deleteSnapshot c.id
      (captureMany s (cs ++ [c]))).selectedSnapshotId = none := by
    unfold deleteSnapshot
    simp [hsel]
  refine ⟨⟨?_, ?_, ?_⟩, ?_⟩
  · rw [hfilter]
    simp
  · rw [hfilter, hsnaps, List.dropLast_concat]
  · exact getSelectedSnapshot_of_none _ hselnone
  · intro t j hne
    simp [deleteSnapshot, hne]

/-- C5, witness: two captures with distinct ids, then deletion of the
selected second one; and a non-selected deletion on `initialState`. -/
theorem c5_delete_selected_snapshot_witness :
    initialState.snapshots = [] ∧
    ((([(⟨"t1", ⟨0, 0, 0⟩, ⟨0, 0, 0⟩, "id-a", "d1"⟩ : CaptureArgs)]
        ++ [(⟨"t2", ⟨1, 1, 1⟩, ⟨0, 0, 0⟩, "id-b", "d2"⟩ : CaptureArgs)]).map
          CaptureArgs.id).Nodup) ∧
    (((deleteSnapshot (CaptureArgs.id ⟨"t2", ⟨1, 1, 1⟩, ⟨0, 0, 0⟩, "id-b", "d2"⟩)
        (captureMany initialState
          ([⟨"t1", ⟨0, 0, 0⟩, ⟨0, 0, 0⟩, "id-a", "d1"⟩]
            ++ [⟨"t2", ⟨1, 1, 1⟩, ⟨0, 0, 0⟩, "id-b", "d2"⟩]))).snapshots.length
        = ([(⟨"t1", ⟨0, 0, 0⟩, ⟨0, 0, 0⟩, "id-a", "d1"⟩ : CaptureArgs)]
            ++ [(⟨"t2", ⟨1, 1, 1⟩, ⟨0, 0, 0⟩, "id-b", "d2"⟩ : CaptureArgs)]).length - 1 ∧
      (deleteSnapshot (CaptureArgs.id ⟨"t2", ⟨1, 1, 1⟩, ⟨0, 0, 0⟩, "id-b", "d2"⟩)
        (captureMany initialState
          ([⟨"t1", ⟨0, 0, 0⟩, ⟨0, 0, 0⟩, "id-a", "d1"⟩]
            ++ [⟨"t2", ⟨1, 1, 1⟩, ⟨0, 0, 0⟩, "id-b", "d2"⟩]))).snapshots
        = (captureMany initialState
            ([⟨"t1", ⟨0, 0, 0⟩, ⟨0, 0, 0⟩, "id-a", "d1"⟩]
              ++ [⟨"t2", ⟨1, 1, 1⟩, ⟨0, 0, 0⟩, "id-b", "d2"⟩])).snapshots.dropLast ∧
      getSelectedSnapshot
        (deleteSnapshot (CaptureArgs.id ⟨"t2", ⟨1, 1, 1⟩, ⟨0, 0, 0⟩, "id-b", "d2"⟩)
          (captureMany initialState
            ([⟨"t1", ⟨0, 0, 0⟩, ⟨0, 0, 0⟩, "id-a", "d1"⟩]
              ++ [⟨"t2", ⟨1, 1, 1⟩, ⟨0, 0, 0⟩, "id-b", "d2"⟩]))) = none) ∧
     ∀ (t : CameraExplorerState) (j : String),
       t.selectedSnapshotId ≠ some j →
       (deleteSnapshot j t).selectedSnapshotId = t.selectedSnapshotId) :=
  ⟨rfl, by decide,
    c5_delete_selected_snapshot initialState
      [⟨"t1", ⟨0, 0, 0⟩, ⟨0, 0, 0⟩, "id-a", "d1"⟩]
      ⟨"t2", ⟨1, 1, 1⟩, ⟨0, 0, 0⟩, "id-b", "d2"⟩ rfl (by decide)⟩

/-- C6, counterexample: `selectSnapshot` has no existence check. Starting from
a state holding one snapshot (`snap-1`, selected), selecting the non-existent
id `missing-id` changes the store state, and changes which snapshot is
observably selected (`getSelectedSnapshot` drops from the captured snapshot
to none) — it is not a no-op. -/
theorem c6_select_missing_id_not_noop :
    (let t := captureSnapshot ⟨"thumb", ⟨0, 0, 0⟩, ⟨0, 0, 0⟩, "snap-1", "t0"⟩
       initialState
     selectSnapshot "missing-id" t ≠ t ∧
     getSelectedSnapshot (selectSnapshot "missing-id" t)
       ≠ getSelectedSnapshot t) := by
  decide

/-- C6, amended: `selectSnapshot(id)` unconditionally sets the selection
pointer to `id`, even when no snapshot has that id; no error is raised (the
action is total), and for a non-existent id the observable selection
(`getSelectedSnapshot`) afterwards is none — rather than the state being
unchanged as the claim says. -/
theorem c6_select_sets_pointer_unconditionally (s : CameraExplorerState)
    (snapshotId : String) :
    selectSnapshot snapshotId s
      = { s with selectedSnapshotId := some snapshotId } ∧
    ((∀ snap ∈ s.snapshots, snap.id ≠ snapshotId) →
      getSelectedSnapshot (selectSnapshot snapshotId s) = none) := by
  refine ⟨rfl, fun h => ?_⟩
  unfold getSelectedSnapshot selectSnapshot
  apply List.find?_eq_none.mpr
  intro snap hmem
  simp only [decide_eq_true_eq, Option.some.injEq]
  exact h snap hmem

/-- C6, witness for `c6_select_sets_pointer_unconditionally`: selecting
`missing-id` on the empty initial store. -/
theorem c6_select_sets_pointer_unconditionally_witness :
    (∀ snap ∈ initialState.snapshots, snap.id ≠ "missing-id") ∧
    (selectSnapshot "missing-id" initialState
        = { initialState with selectedSnapshotId := some "missing-id" } ∧
      getSelectedSnapshot (selectSnapshot "missing-id" initialState) = none) :=
  ⟨by decide,
    ⟨(c6_select_sets_pointer_unconditionally initialState "missing-id").1,
     (c6_select_sets_pointer_unconditionally initialState "missing-id").2
       (by decide)⟩⟩

/-- C7: with the default preset table, the reverse shortcut lookup for key
"3" returns exactly the lens id "35mm"; and for every key no preset claims,
the lookup returns none. -/
theorem c7_shortcut_reverse_lookup :
    getLensFromShortcut "3" = some "35mm" ∧
    ∀ key : String, (∀ e ∈ LENS_PRESETS, e.2.shortcut ≠ key) →
      getLensFromShortcut key = none := by
  refine ⟨by decide, fun key h => ?_⟩
  unfold getLensFromShortcut
  have hfind : LENS_PRESETS.find? (fun e => e.2.shortcut = key) = none := by
    apply List.find?_eq_none.mpr
    intro e he
    simp only [decide_eq_true_eq]
    exact h e he
  rw [hfind]
  rfl

/-- C7, witness: no preset claims the key "9". -/
theorem c7_shortcut_reverse_lookup_witness :
    (∀ e ∈ LENS_PRESETS, e.2.shortcut ≠ "9") ∧
    getLensFromShortcut "9" = none :=
  ⟨by decide, c7_shortcut_reverse_lookup.2 "9" (by decide)⟩

/-- C8: after `resetCamera`, reads of camera position, rotation and lens give
the fixed defaults — position `(0,0,5)`, zero rotation, the default lens
`35mm` — and any two prior states reset to identical values. -/
theorem c8_reset_camera_fixed_defaults (s s1 s2 : CameraExplorerState) :
    ((resetCamera s).cameraPosition = ⟨0, 0, 5⟩ ∧
     (resetCamera s).cameraRotation = ⟨0, 0, 0⟩ ∧
     (resetCamera s).selectedLens = DEFAULT_LENS) ∧
    ((resetCamera s1).cameraPosition = (resetCamera s2).cameraPosition ∧
     (resetCamera s1).cameraRotation = (resetCamera s2).cameraRotation ∧
     (resetCamera s1).selectedLens = (resetCamera s2).selectedLens) :=
  ⟨⟨rfl, rfl, rfl⟩, ⟨rfl, rfl, rfl⟩⟩

/-- C9: the observable selection is closed over the collection —
`getSelectedSnapshot` returns none or a snapshot that is an element of
`snapshots`; and whenever the pointer matches no existing snapshot, it
returns none rather than failing. -/
theorem c9_selection_closed_over_collection (s : CameraExplorerState) :
    (getSelectedSnapshot s = none ∨
      ∃ snap, snap ∈ s.snapshots ∧ getSelectedSnapshot s = some snap) ∧
    ((∀ snap ∈ s.snapshots, some snap.id ≠ s.selectedSnapshotId) →
      getSelectedSnapshot s = none) := by
  constructor
  · rcases hf : getSelectedSnapshot s with _ | snap
    · exact Or.inl rfl
    · refine Or.inr ⟨snap, ?_, rfl⟩
      have hf2 := hf
      unfold getSelectedSnapshot at hf2
      exact List.mem_of_find?_eq_some hf2
  · intro h
    unfold getSelectedSnapshot
    apply List.find?_eq_none.mpr
    intro snap hm
    simp only [decide_eq_true_eq]
    exact h snap hm

/-- C9, witness: the initial store (empty collection, pointer none). -/
theorem c9_selection_closed_over_collection_witness :
    (∀ snap ∈ initialState.snapshots,
      some snap.id ≠ initialState.selectedSnapshotId) ∧
    getSelectedSnapshot initialState = none :=
  ⟨by decide, (c9_selection_closed_over_collection initialState).2 (by decide)⟩

/-- C10: `setReconstructionError` changes only the status (to "error"), the
error message, and `plyUrl` (to none); snapshots, the selection pointer, the
source image references, camera position/rotation/lens, the overlay flags and
the generation fields are all unchanged. -/
theorem c10_fail_frame_condition (s : CameraExplorerState) (e : String) :
    (setReconstructionError e s).reconstructionStatus = "error" ∧
    (setReconstructionError e s).reconstructionError = some e ∧
    (setReconstructionError e s).plyUrl = none ∧
    (setReconstructionError e s).snapshots = s.snapshots ∧
    (setReconstructionError e s).selectedSnapshotId = s.selectedSnapshotId ∧
    (setReconstructionError e s).sourceKeyframeId = s.sourceKeyframeId ∧
    (setReconstructionError e s).sourceKeyframeUrl = s.sourceKeyframeUrl ∧
    (setReconstructionError e s).cameraPosition = s.cameraPosition ∧
    (setReconstructionError e s).cameraRotation = s.cameraRotation ∧
    (setReconstructionError e s).selectedLens = s.selectedLens ∧
    (setReconstructionError e s).showGrid = s.showGrid ∧
    (setReconstructionError e s).showHUD = s.showHUD ∧
    (setReconstructionError e s).generationStatus = s.generationStatus ∧
    (setReconstructionError e s).generationError = s.generationError ∧
    (setReconstructionError e s).generatedFrameUrl = s.generatedFrameUrl :=
  ⟨rfl, rfl, rfl, rfl, rfl, rfl, rfl, rfl, rfl, rfl, rfl, rfl, rfl, rfl, rfl⟩
